import Mathlib

/-!
# Verification of the notification-delivery core of cds-snc/notifier-api

A shallow embedding, in Lean 4, of the delivery pipeline of the repository:

* `app/queue.py` — the Redis-backed durable queue (`RedisQueue`): Lua
  move-to-in-flight script, `poll`, `acknowledge`, `publish`;
* `app/celery/process_pinpoint_receipts_tasks.py` — the Pinpoint receipt
  reconciler (`process_pinpoint_results`, `determine_pinpoint_status`);
* `app/celery/service_callback_tasks.py` — the service-callback dispatcher
  (`send_delivery_status_to_service`, `_send_data_to_service_callback_api`,
  `_check_and_queue_callback_task`, `create_delivery_status_callback_data`);
* `app/encryption.py` — the purpose-scoped signer (`CryptoSigner`).

Machine integers do not occur; Redis list indices and retry counters are `Nat`.
Redis state is modelled explicitly: the inbox is a Lean list (head = list
index 0), the in-flight keyspace an association list from key names to lists,
with "absent key" identified with the empty list (a Redis list never exists
empty).  Each definition carries the name of the Python function it embeds.
-/

set_option maxRecDepth 20000

namespace NotifierApi

/-! ## Durable queue: `app/queue.py` -/

/-- `Buffer.INBOX.value` in `app/queue.py`. -/
def inboxKey : String := "INBOX"

/-- `RedisQueue.get_inflight_name`: `f"{Buffer.IN_FLIGHT.value}:{str(receipt)}"`. -/
def get_inflight_name (receipt : String) : String := "IN-FLIGHT:" ++ receipt

/-- One iteration of the Lua `move-in-inflight` loop body, acting on the pair
(source list `s`, destination list `d`):
`LRANGE s 0 99` reads the first 100 elements of `s` (in list order),
`LPUSH d unpack(l)` pushes them one by one at the head of `d` (so the chunk
ends up reversed at the head of `d`), and `LTRIM s 100 -1` drops them from `s`. -/
def luaChunkStep (s d : List α) : List α × List α :=
  (s.drop 100, (s.take 100).reverse ++ d)

/-- The Lua script `move-in-inflight` registered in `RedisQueue.__register_scripts`.
Its `while j < i do ... j = j + 100` loop, with `j` starting at `0` and
`i = math.min(LLEN s, count)`, runs exactly `⌈i / 100⌉` times; `moveChunks k`
is that loop unrolled over its iteration count `k`.  The state is
`(s, d, elems)`: the source (inbox) list, the destination (in-flight) list and
the accumulated return value `elems` (chunks appended in `LRANGE` order). -/
def moveChunks : Nat → List α × List α × List α → List α × List α × List α
  | 0, st => st
  | k + 1, (s, d, elems) =>
      moveChunks k (s.drop 100, (s.take 100).reverse ++ d, elems ++ s.take 100)

/-- The full Lua script `move-in-inflight`: computes `i = min (LLEN s) count`,
runs the chunk loop `⌈i / 100⌉` times, and returns the final
(source, destination, returned elements) triple. -/
def luaMoveToInflight (s d : List α) (count : Nat) : List α × List α × List α :=
  moveChunks ((min s.length count + 99) / 100) (s, d, elems₀)
where
  elems₀ : List α := []

/-- Number of elements the Lua script removes from the head of an inbox of
length `len` when called with cap `count`: the loop always moves full chunks of
up to 100, so the cap `min len count` is rounded up to the next multiple of
100 (and then truncated by the actual inbox length via `take`/`drop`). -/
def movedBound (len count : Nat) : Nat :=
  100 * ((min len count + 99) / 100)

/-- Redis state as visible to `RedisQueue`: the inbox list plus the in-flight
keyspace, an association list from in-flight key names to their contents.  A
key that is not present is read as the empty list, matching Redis, where an
empty list and an absent key are indistinguishable. -/
structure QueueState (α : Type) where
  inbox : List α
  inflight : List (String × List α)
deriving DecidableEq, Repr

/-- Redis `GET`-like read of an in-flight list: the first entry with the given
key, or the empty list when absent. -/
def lookupKey (m : List (String × List α)) (k : String) : List α :=
  match m.find? (fun p => p.1 == k) with
  | some p => p.2
  | none => []

/-- Redis `DEL key`: remove every entry with the given key.  `DEL` on an
absent key is a no-op returning 0; it never raises. -/
def delKey (m : List (String × List α)) (k : String) : List (String × List α) :=
  m.filter (fun p => ! (p.1 == k))

/-- Write an in-flight list under a key (the net effect of the script's
`LPUSH`es on the destination key); writing the empty list deletes the key,
since a Redis list never exists empty. -/
def setKey (m : List (String × List α)) (k : String) (v : List α) :
    List (String × List α) :=
  if v.isEmpty then delKey m k else (k, v) :: delKey m k

/-- `RedisQueue.poll(count)` from `app/queue.py`, with the freshly generated
`uuid4()` receipt supplied as the `receipt` argument: runs the Lua script with
source `INBOX` and destination `IN-FLIGHT:<receipt>`, stores the script's
destination list under that key, and returns the script's `elems` result
(which `__move_to_inflight` JSON-decodes and hands back). -/
def poll (st : QueueState α) (receipt : String) (count : Nat) :
    QueueState α × List α :=
  let key := get_inflight_name receipt
  let r := luaMoveToInflight st.inbox (lookupKey st.inflight key) count
  (⟨r.1, setKey st.inflight key r.2.1⟩, r.2.2)

/-- `RedisQueue.acknowledge(receipt)`: `DELETE` of the in-flight key. -/
def acknowledge (st : QueueState α) (receipt : String) : QueueState α :=
  ⟨st.inbox, delKey st.inflight (get_inflight_name receipt)⟩

/-- `RedisQueue.publish(serializable)`: `RPUSH` of the serialized item onto the
tail of the inbox. -/
def publish (st : QueueState α) (item : α) : QueueState α :=
  ⟨st.inbox ++ [item], st.inflight⟩

/-- The empty Redis state. -/
def QueueState.empty (α : Type) : QueueState α := ⟨[], []⟩

/-! ### Characterisation of the Lua chunk loop -/

theorem moveChunks_spec (k : Nat) (s d elems : List α) :
    moveChunks k (s, d, elems) =
      (s.drop (100 * k), (s.take (100 * k)).reverse ++ d,
        elems ++ s.take (100 * k)) := by
  induction k generalizing s d elems with
  | zero => simp [moveChunks]
  | succ k ih =>
      rw [moveChunks, ih]
      have h100 : 100 * (k + 1) = 100 + 100 * k := by ring
      refine Prod.ext ?_ (Prod.ext ?_ ?_)
      · simp [h100, List.drop_drop, Nat.add_comm]
      · simp only [h100, List.take_add, List.reverse_append, List.append_assoc]
      · simp only [h100, List.take_add, List.append_assoc]

theorem luaMoveToInflight_spec (s d : List α) (count : Nat) :
    luaMoveToInflight s d count =
      (s.drop (movedBound s.length count),
        (s.take (movedBound s.length count)).reverse ++ d,
        s.take (movedBound s.length count)) := by
  rw [luaMoveToInflight, moveChunks_spec, movedBound]
  simp [luaMoveToInflight.elems₀]

theorem poll_spec (st : QueueState α) (receipt : String) (count : Nat) :
    poll st receipt count =
      (⟨st.inbox.drop (movedBound st.inbox.length count),
        setKey st.inflight (get_inflight_name receipt)
          ((st.inbox.take (movedBound st.inbox.length count)).reverse ++
            lookupKey st.inflight (get_inflight_name receipt))⟩,
        st.inbox.take (movedBound st.inbox.length count)) := by
  rw [poll, luaMoveToInflight_spec]

theorem lookupKey_nil (k : String) : lookupKey ([] : List (String × List α)) k = [] :=
  rfl

theorem lookupKey_cons (p : String × List α) (m : List (String × List α)) (k : String) :
    lookupKey (p :: m) k = if p.1 = k then p.2 else lookupKey m k := by
  by_cases h : p.1 = k
  · simp [lookupKey, List.find?_cons_of_pos, h]
  · simp [lookupKey, List.find?_cons_of_neg, h]

theorem delKey_cons (p : String × List α) (m : List (String × List α)) (k : String) :
    delKey (p :: m) k = if p.1 = k then delKey m k else p :: delKey m k := by
  by_cases h : p.1 = k <;> simp [delKey, List.filter_cons, h]

theorem lookupKey_delKey (m : List (String × List α)) (k k' : String) :
    lookupKey (delKey m k) k' = if k' = k then [] else lookupKey m k' := by
  induction m with
  | nil => simp [delKey, lookupKey]
  | cons hd tl ih =>
      rw [delKey_cons]
      by_cases h1 : hd.1 = k <;> by_cases h2 : hd.1 = k' <;>
        simp [lookupKey_cons, h1, h2, ih] <;> simp_all [lookupKey_cons]

theorem delKey_delKey (m : List (String × List α)) (k : String) :
    delKey (delKey m k) k = delKey m k := by
  simp [delKey, List.filter_filter]

/-! ### Queue claims -/

/-- **C2, counterexample.** The claim "poll(count) returns … never more than
count" fails: with 150 items in the inbox, `poll(count := 10)` moves and
returns a full 100-item chunk, because the Lua loop moves chunks of 100 and
never truncates the final chunk to the remaining cap. -/
theorem C2_poll_count_counterexample :
    (poll (⟨List.range 150, []⟩ : QueueState Nat) "receipt-1" 10).2.length = 100 ∧
      ¬ (poll (⟨List.range 150, []⟩ : QueueState Nat) "receipt-1" 10).2.length ≤ 10 := by
  constructor <;> decide

/-- **C2 (amended).** `poll(count)` atomically moves items from the head of
the inbox into the in-flight list named by the fresh receipt and returns
exactly the moved items, but the cap `count` is enforced only at 100-item
chunk granularity: exactly `min len (100·⌈min len count / 100⌉)` items move.
Consequently at most `count` items are returned whenever `count` is a multiple
of 100; when the inbox holds at most `count` items all of them (possibly zero)
are returned; and the spec's scenario holds: publishing 150 items to an empty
inbox, `poll(100)` returns exactly 100 items and a second `poll(100)` returns
the remaining 50, leaving the inbox empty. -/
theorem C2_poll_moves_chunked :
    (∀ (α : Type) (st : QueueState α) (receipt : String) (count : Nat),
      poll st receipt count =
        (⟨st.inbox.drop (movedBound st.inbox.length count),
          setKey st.inflight (get_inflight_name receipt)
            ((st.inbox.take (movedBound st.inbox.length count)).reverse ++
              lookupKey st.inflight (get_inflight_name receipt))⟩,
          st.inbox.take (movedBound st.inbox.length count)) ∧
      (st.inbox.length ≤ count → (poll st receipt count).2 = st.inbox) ∧
      (count % 100 = 0 → (poll st receipt count).2.length ≤ count)) ∧
    ((poll ((List.range 150).foldl publish (QueueState.empty Nat)) "r1" 100).2.length
        = 100 ∧
      (poll (poll ((List.range 150).foldl publish (QueueState.empty Nat)) "r1" 100).1
          "r2" 100).2.length = 50 ∧
      (poll (poll ((List.range 150).foldl publish (QueueState.empty Nat)) "r1" 100).1
          "r2" 100).1.inbox = []) := by
  constructor
  · intro α st receipt count
    refine ⟨poll_spec st receipt count, ?_, ?_⟩
    · intro hle
      rw [poll_spec]
      exact List.take_of_length_le (by unfold movedBound; omega)
    · intro hmod
      rw [poll_spec]
      simp only [List.length_take]
      unfold movedBound
      omega
  · refine ⟨by decide, by decide, by decide⟩

/-- **C2 witness**: the amended theorem applied at a concrete state, with both
hypotheses discharged. -/
theorem C2_poll_moves_chunked_wit :
    (poll (⟨[1, 2], []⟩ : QueueState Nat) "r" 100).2 = [1, 2] ∧
      (poll (⟨[1, 2], []⟩ : QueueState Nat) "r" 100).2.length ≤ 100 :=
  ⟨(C2_poll_moves_chunked.1 Nat ⟨[1, 2], []⟩ "r" 100).2.1 (by decide),
   (C2_poll_moves_chunked.1 Nat ⟨[1, 2], []⟩ "r" 100).2.2 (by decide)⟩

/-- **C7.** FIFO per batch: a single `poll` returns the moved items as a
prefix of the inbox in original publish order — the per-chunk `LRANGE` reads
are concatenated head-first, so order is preserved across the chunked atomic
moves; in particular publishing A, B, C and polling with count 3 yields
exactly `[A, B, C]`. -/
theorem C7_fifo_per_batch :
    (∀ (α : Type) (st : QueueState α) (receipt : String) (count : Nat),
      (poll st receipt count).2 =
        st.inbox.take (movedBound st.inbox.length count)) ∧
    ∀ (a b c : Nat) (receipt : String),
      (poll (publish (publish (publish (QueueState.empty Nat) a) b) c)
        receipt 3).2 = [a, b, c] := by
  constructor
  · intro α st receipt count
    rw [poll_spec]
  · intro a b c receipt
    rw [poll_spec]
    simp [publish, QueueState.empty, movedBound]

/-- **C9.** `acknowledge(receipt)` deletes exactly the in-flight list named by
the receipt: re-acknowledging the same receipt is a no-op on the whole state,
the inbox is untouched, and every other in-flight key reads unchanged — in
particular acknowledging an unknown or expired receipt (whose key reads empty
and stays empty) changes no observable list; the operation is total (Redis
`DEL` never raises). -/
theorem C9_acknowledge_idempotent_frame :
    ∀ (α : Type) (st : QueueState α) (receipt : String),
      acknowledge (acknowledge st receipt) receipt = acknowledge st receipt ∧
      (acknowledge st receipt).inbox = st.inbox ∧
      ∀ k, lookupKey (acknowledge st receipt).inflight k =
        if k = get_inflight_name receipt then [] else lookupKey st.inflight k := by
  intro α st receipt
  refine ⟨?_, rfl, ?_⟩
  · simp only [acknowledge, delKey_delKey]
  · intro k
    exact lookupKey_delKey st.inflight (get_inflight_name receipt) k

/-! ## Purpose-scoped signer: `app/encryption.py`

`CryptoSigner` wraps one `itsdangerous.URLSafeSerializer(SECRET_KEY)`.  The
library's contract is: `dumps(value, salt)` produces a token whose signature
is an HMAC over the value, keyed by the secret key and the salt;
`loads(token, salt)` returns the value iff the token's signature verifies
under that same (key, salt) pair, and raises `BadSignature` otherwise.  The
library itself is a dependency, not repository code, so a token is modelled
as the pair (payload, salt it was signed under) and `loads` as the equality
test on the salt — faithful to the HMAC contract under the standard
assumption that signatures under distinct salts never collide. -/

/-- A token produced by `URLSafeSerializer.dumps`: the signed payload together
with the salt the signature was produced under. -/
structure SignedToken where
  payload : String
  salt : String
deriving DecidableEq, Repr

/-- `URLSafeSerializer.dumps(value, salt)`. -/
def serializer_dumps (value salt : String) : SignedToken := ⟨value, salt⟩

/-- `URLSafeSerializer.loads(token, salt)`: the payload when the signature
matches the salt, `none` for the `BadSignature` exception. -/
def serializer_loads (t : SignedToken) (salt : String) : Option String :=
  if t.salt = salt then some t.payload else none

/-- The `CryptoSigner` state set by `init_app`: `self.salt` is
`DANGEROUS_SALT`, the default salt. -/
structure CryptoSigner where
  dangerousSalt : String
deriving DecidableEq, Repr

/-- `CryptoSigner._sign(to_sign, salt)`: `salt=None` defaults to `self.salt`. -/
def CryptoSigner.sign (c : CryptoSigner) (toSign : String) (salt : Option String) :
    SignedToken :=
  serializer_dumps toSign (salt.getD c.dangerousSalt)

/-- `CryptoSigner._verify(to_verify, salt)`: tries `loads` with the requested
salt and, on `BadSignature`, falls back to `loads` with the default salt
`self.salt` (the code's NOTE: "currently the verify checks agains the default
salt as well as the salt passed in").  `none` models the `BadSignature` that
escapes when both attempts fail. -/
def CryptoSigner.verify (c : CryptoSigner) (toVerify : SignedToken)
    (salt : Option String) : Option String :=
  match serializer_loads toVerify (salt.getD c.dangerousSalt) with
  | some v => some v
  | none => serializer_loads toVerify c.dangerousSalt

/-- `CryptoSigner.sign_dangerous`: `_sign` with the default salt. -/
def CryptoSigner.sign_dangerous (c : CryptoSigner) (toSign : String) : SignedToken :=
  c.sign toSign none

/-! ### Signer claims -/

/-- **C3, counterexample.** The claim "verify(T, sign(U, P)) fails with a
BadSignature error for every U ≠ T, including the default/dangerous scope"
is false: a token signed by `sign_dangerous` (default scope) is accepted by
`verify` under the unrelated purpose `"notification"`, because `_verify`
falls back to the default salt after the first `BadSignature`. -/
theorem C3_cross_purpose_counterexample :
    (CryptoSigner.mk "dangerous-salt").verify
        ((CryptoSigner.mk "dangerous-salt").sign_dangerous "payload")
        (some "notification") = some "payload" ∧
      "notification" ≠ "dangerous-salt" := by
  constructor <;> decide

/-- **C3 (amended).** Signature verification is purpose-scoped up to the
default-salt fallback: `verify(T, sign(T, P)) = P`; for a signing scope `U`
with `U ≠ T` and `U` different from the default/dangerous salt,
`verify(T, sign(U, P))` fails with `BadSignature`; but a token signed under
the default/dangerous scope (as by `sign_dangerous`) is accepted under every
purpose `T`, by the deliberate fallback to `self.salt` in `_verify`. -/
theorem C3_purpose_scoping :
    ∀ (c : CryptoSigner) (payload purposeT scopeU : String),
      c.verify (c.sign payload (some purposeT)) (some purposeT) = some payload ∧
      (scopeU ≠ purposeT → scopeU ≠ c.dangerousSalt →
        c.verify (c.sign payload (some scopeU)) (some purposeT) = none) ∧
      c.verify (c.sign_dangerous payload) (some purposeT) = some payload := by
  intro c payload purposeT scopeU
  refine ⟨?_, ?_, ?_⟩
  · simp [CryptoSigner.verify, CryptoSigner.sign, serializer_dumps, serializer_loads]
  · intro hU hD
    simp only [CryptoSigner.verify, CryptoSigner.sign, serializer_dumps,
      serializer_loads, Option.getD_some]
    rw [if_neg hU, if_neg hD]
  · by_cases h : c.dangerousSalt = purposeT <;>
      simp [CryptoSigner.verify, CryptoSigner.sign_dangerous, CryptoSigner.sign,
        serializer_dumps, serializer_loads, h]

/-- **C3 witness**: the amended theorem at a concrete signer and scopes, with
both hypotheses of the cross-purpose conjunct discharged. -/
theorem C3_purpose_scoping_wit :
    (CryptoSigner.mk "s").verify
        ((CryptoSigner.mk "s").sign "P" (some "complaint")) (some "delivery-status")
      = none :=
  ((C3_purpose_scoping (CryptoSigner.mk "s") "P" "delivery-status" "complaint").2.1
    (by decide) (by decide))

/-! ## Service callback dispatcher: `app/celery/service_callback_tasks.py` -/

/-- The decrypted delivery-status callback payload, i.e. the dictionary built
by `create_delivery_status_callback_data` (fields that the code guards with
`if ... else None` are `Option`-valued).  `strftime(DATETIME_FORMAT)` output
is kept as the already-formatted string. -/
structure StatusUpdate where
  notification_client_reference : Option String
  notification_to : String
  notification_status : String
  notification_created_at : String
  notification_updated_at : Option String
  notification_sent_at : Option String
  notification_type : String
  service_callback_api_url : String
  service_callback_api_bearer_token : String
deriving DecidableEq, Repr

/-- The `data` dict built inside `send_delivery_status_to_service`, as the
ordered list of JSON object entries (`None` serialising to JSON `null`). -/
def send_delivery_status_data (notification_id : String) (su : StatusUpdate) :
    List (String × Option String) :=
  [("id", some notification_id),
   ("reference", su.notification_client_reference),
   ("to", some su.notification_to),
   ("status", some su.notification_status),
   ("created_at", some su.notification_created_at),
   ("completed_at", su.notification_updated_at),
   ("sent_at", su.notification_sent_at),
   ("notification_type", some su.notification_type)]

/-- The headers passed to `request(...)` in `_send_data_to_service_callback_api`. -/
def callback_request_headers (token : String) : List (String × String) :=
  [("Content-Type", "application/json"),
   ("Authorization", "Bearer " ++ token)]

/-- One outbound HTTP call of the dispatcher. -/
structure HttpRequest where
  method : String
  url : String
  body : List (String × Option String)
  headers : List (String × String)
deriving DecidableEq, Repr

/-- The single `request(method="POST", ...)` call that one execution of
`send_delivery_status_to_service` performs via
`_send_data_to_service_callback_api`. -/
def send_delivery_status_request (notification_id : String) (su : StatusUpdate) :
    HttpRequest :=
  { method := "POST",
    url := su.service_callback_api_url,
    body := send_delivery_status_data notification_id su,
    headers := callback_request_headers su.service_callback_api_bearer_token }

/-- What the `try`/`except RequestException` block observes of the POST:
either an HTTP response (any status code; `raise_for_status` turns 4xx/5xx
into an `HTTPError`) or a `RequestException` that is not an `HTTPError`
(timeout, connection error). -/
inductive PostResult where
  | response (status_code : Nat)
  | connectionError
deriving DecidableEq, Repr

/-- How one execution of a callback-dispatch task ends. -/
inductive CallbackOutcome where
  | delivered
  | noRetry
  | retried
  | droppedMaxRetries
deriving DecidableEq, Repr

/-- Log events of `_send_data_to_service_callback_api`, in emission order. -/
inductive CallbackLog where
  | infoSent (status_code : Nat)
  | warnRequestFailed
  | warnMaxRetries
deriving DecidableEq, Repr

/-- `max_retries=5` on the `send-delivery-status` / `send-complaint` task
decorators. -/
def callback_max_retries : Nat := 5

/-- Celery `self.retry(queue=QueueNames.RETRY)` wrapped in
`except self.MaxRetriesExceededError`: resubmits while retries remain,
otherwise logs the max-retries warning and drops without raising. -/
def callbackRetryPath (retries : Nat) : CallbackOutcome × List CallbackLog :=
  if retries < callback_max_retries then (.retried, [.warnRequestFailed])
  else (.droppedMaxRetries, [.warnRequestFailed, .warnMaxRetries])

/-- The error-handling skeleton of `_send_data_to_service_callback_api`:
on a received response the info line is logged, then `raise_for_status`
raises `HTTPError` for 4xx/5xx; the `except RequestException` clause retries
iff `not isinstance(e, HTTPError) or e.response.status_code >= 500`. -/
def _send_data_to_service_callback_api (retries : Nat) (post : PostResult) :
    CallbackOutcome × List CallbackLog :=
  match post with
  | .connectionError => callbackRetryPath retries
  | .response code =>
      if code < 400 then (.delivered, [.infoSent code])
      else if 500 ≤ code then
        let r := callbackRetryPath retries
        (r.1, .infoSent code :: r.2)
      else (.noRetry, [.infoSent code, .warnRequestFailed])

/-! ### Dispatcher claims -/

/-- **C5, counterexample.** The claim says a 429 rate-limit response is
retried; it is not: `429` is an `HTTPError` with status `< 500`, so the retry
condition `not isinstance(e, HTTPError) or e.response.status_code >= 500` is
false and the callback is dropped on the first attempt. -/
theorem C5_429_counterexample :
    (_send_data_to_service_callback_api 0 (.response 429)).1 = .noRetry ∧
      (_send_data_to_service_callback_api 0 (.response 429)).1 ≠ .retried ∧
      (0 : Nat) < callback_max_retries := by
  refine ⟨by decide, by decide, by decide⟩

/-- **C5 (amended).** The dispatcher resubmits the task to the retry lane
exactly when the failure is a non-HTTP request exception or a 5xx server
error, and retries remain; every 4xx response — including 429 — is never
retried; exhausting the maximum retry count (`max_retries = 5`) logs a
warning and drops the callback without raising. -/
theorem C5_retry_policy :
    ∀ (retries : Nat) (post : PostResult),
      ((_send_data_to_service_callback_api retries post).1 = .retried ↔
        (retries < callback_max_retries ∧
          (post = .connectionError ∨ ∃ c, post = .response c ∧ 500 ≤ c))) ∧
      (∀ c, 400 ≤ c → c < 500 →
        (_send_data_to_service_callback_api retries (.response c)).1 = .noRetry) ∧
      (callback_max_retries ≤ retries →
        (post = .connectionError ∨ ∃ c, post = .response c ∧ 500 ≤ c) →
        (_send_data_to_service_callback_api retries post).1 = .droppedMaxRetries ∧
          CallbackLog.warnMaxRetries ∈ (_send_data_to_service_callback_api retries post).2) := by
  intro retries post
  refine ⟨?_, ?_, ?_⟩
  · cases post with
    | connectionError =>
        simp only [_send_data_to_service_callback_api, callbackRetryPath]
        split <;> simp_all
    | response c =>
        simp only [_send_data_to_service_callback_api, callbackRetryPath]
        split
        · simp; omega
        · split
          · split <;> simp_all
          · simp; omega
  · intro c h4 h5
    simp only [_send_data_to_service_callback_api]
    rw [if_neg (by omega), if_neg (by omega)]
  · intro hmax hcase
    cases post with
    | connectionError =>
        simp only [_send_data_to_service_callback_api, callbackRetryPath]
        rw [if_neg (by omega)]
        simp
    | response c =>
        rcases hcase with h | ⟨c', hc', h5⟩
        · exact absurd h (by simp)
        · obtain rfl : c = c' := by injection hc'
          simp only [_send_data_to_service_callback_api, callbackRetryPath]
          rw [if_neg (by omega), if_pos h5, if_neg (by omega)]
          simp

/-- **C5 witness**: the amended theorem at concrete attempts and responses:
a first-attempt 503 is retried, a 404 is not, and an exhausted connection
error is dropped with the max-retries warning. -/
theorem C5_retry_policy_wit :
    (_send_data_to_service_callback_api 0 (.response 503)).1 = .retried ∧
      (_send_data_to_service_callback_api 0 (.response 404)).1 = .noRetry ∧
      (_send_data_to_service_callback_api 5 .connectionError).1 = .droppedMaxRetries :=
  ⟨((C5_retry_policy 0 (.response 503)).1).2
      ⟨by decide, Or.inr ⟨503, rfl, by decide⟩⟩,
   (C5_retry_policy 0 (.response 404)).2.1 404 (by decide) (by decide),
   ((C5_retry_policy 5 .connectionError).2.2 (by decide) (Or.inl rfl)).1⟩

/-- **C8, counterexample.** The claim lists `status_description` and
`provider_response` among the POSTed payload keys; the `data` dict built by
`send_delivery_status_to_service` contains neither. -/
theorem C8_payload_keys_counterexample :
    let su : StatusUpdate :=
      { notification_client_reference := some "ref",
        notification_to := "+16135550123",
        notification_status := "delivered",
        notification_created_at := "2024-04-12 17:11:07.685000",
        notification_updated_at := some "2024-04-12 17:11:08.877000",
        notification_sent_at := some "2024-04-12 17:11:07.700000",
        notification_type := "sms",
        service_callback_api_url := "https://example.test/cb",
        service_callback_api_bearer_token := "tok" }
    "status_description" ∉ (send_delivery_status_data "nid" su).map Prod.fst ∧
      "provider_response" ∉ (send_delivery_status_data "nid" su).map Prod.fst := by
  refine ⟨by decide, by decide⟩

/-- **C8 (amended).** Every delivery-status payload POSTed to a service's
callback URL is a JSON object with exactly the keys `id`, `reference`, `to`,
`status`, `created_at`, `completed_at`, `sent_at`, `notification_type` (no
`status_description`, no `provider_response`), sent as a POST with headers
`Content-Type: application/json` and `Authorization: Bearer <token>`. -/
theorem C8_payload_shape :
    ∀ (notification_id : String) (su : StatusUpdate),
      (send_delivery_status_request notification_id su).body.map Prod.fst =
        ["id", "reference", "to", "status", "created_at", "completed_at",
         "sent_at", "notification_type"] ∧
      (send_delivery_status_request notification_id su).method = "POST" ∧
      (send_delivery_status_request notification_id su).headers =
        [("Content-Type", "application/json"),
         ("Authorization", "Bearer " ++ su.service_callback_api_bearer_token)] := by
  intro notification_id su
  exact ⟨rfl, rfl, rfl⟩

/-! ## Receipt reconciler: `app/celery/process_pinpoint_receipts_tasks.py`

`app/models.py` is not under src/ (only its importers are); the status and
provider constants it exports are modelled from the spec, §3
NotificationStatus. -/

/-- Modelled from the spec: `NOTIFICATION_SENT` of `app/models.py`. -/
def NOTIFICATION_SENT : String := "sent"

/-- Modelled from the spec: `NOTIFICATION_SENDING` of `app/models.py`. -/
def NOTIFICATION_SENDING : String := "sending"

/-- Modelled from the spec: `NOTIFICATION_DELIVERED` of `app/models.py`. -/
def NOTIFICATION_DELIVERED : String := "delivered"

/-- Modelled from the spec: `NOTIFICATION_PERMANENT_FAILURE` of `app/models.py`. -/
def NOTIFICATION_PERMANENT_FAILURE : String := "permanent-failure"

/-- Modelled from the spec: `NOTIFICATION_TEMPORARY_FAILURE` of `app/models.py`. -/
def NOTIFICATION_TEMPORARY_FAILURE : String := "temporary-failure"

/-- Modelled from the spec: `NOTIFICATION_TECHNICAL_FAILURE` of `app/models.py`. -/
def NOTIFICATION_TECHNICAL_FAILURE : String := "technical-failure"

/-- Modelled from the spec: `PINPOINT_PROVIDER` of `app/models.py`. -/
def PINPOINT_PROVIDER : String := "pinpoint"

/-- Python's `needle in haystack` on strings. -/
def strContains (haystack needle : String) : Bool :=
  haystack.data.tails.any fun suffix => needle.data.isPrefixOf suffix

/-- The `reasons` lookup table inside `determine_pinpoint_status`, in source
order. -/
def pinpointReasons : List (String × String) :=
  [("Blocked as spam by phone carrier", NOTIFICATION_TECHNICAL_FAILURE),
   ("Destination is on a blocked list", NOTIFICATION_TECHNICAL_FAILURE),
   ("Invalid phone number", NOTIFICATION_TECHNICAL_FAILURE),
   ("Message body is invalid", NOTIFICATION_TECHNICAL_FAILURE),
   ("Phone carrier has blocked this message", NOTIFICATION_TECHNICAL_FAILURE),
   ("Phone carrier is currently unreachable/unavailable", NOTIFICATION_TEMPORARY_FAILURE),
   ("Phone has blocked SMS", NOTIFICATION_TECHNICAL_FAILURE),
   ("Phone is on a blocked list", NOTIFICATION_TECHNICAL_FAILURE),
   ("Phone is currently unreachable/unavailable", NOTIFICATION_PERMANENT_FAILURE),
   ("Phone number is opted out", NOTIFICATION_PERMANENT_FAILURE),
   ("This delivery would exceed max price", NOTIFICATION_TECHNICAL_FAILURE),
   ("Unknown error attempting to reach phone", NOTIFICATION_TECHNICAL_FAILURE)]

/-- `determine_pinpoint_status(sns_status, provider_response)`: `DELIVERED`
maps to delivered; otherwise `reasons.get(provider_response)`; when that is
`None`, a provider response containing the substring `"is opted out"` maps to
permanent-failure; otherwise `None` is returned. -/
def determine_pinpoint_status (sns_status provider_response : String) :
    Option String :=
  if sns_status = "DELIVERED" then some NOTIFICATION_DELIVERED
  else
    match pinpointReasons.lookup provider_response with
    | some status => some status
    | none =>
        if strContains provider_response "is opted out" then
          some NOTIFICATION_PERMANENT_FAILURE
        else none

/-- The fields of a `Notification` row that the reconciler reads or writes.
Timestamps are abstract ticks. -/
structure Notification where
  id : String
  reference : String
  status : String
  sent_by : String
  provider_response : Option String
  client_reference : Option String
  /-- `Notification.to` in the model; `to` is reserved in Lean. -/
  to_addr : String
  notification_type : String
  created_at : Nat
  updated_at : Option Nat
  sent_at : Option Nat
  service_id : String
deriving DecidableEq, Repr

/-- Modelled from the spec: `notifications_dao.dao_get_notification_by_reference`
(`app/dao/notifications_dao.py` is not under src/) — §4.4 step 2, "Look up the
notification by `reference`"; `none` models `NoResultFound`. -/
def dao_get_notification_by_reference (db : List Notification) (reference : String) :
    Option Notification :=
  db.find? fun n => n.reference == reference

/-- Modelled from the spec: the row-level effect of
`notifications_dao._update_notification_status` — §4.4 step 5, "Apply the
status transition, record provider response text/metadata, and timestamp." -/
def update_notification_record (n : Notification) (status provider_response : String)
    (now : Nat) : Notification :=
  { n with status := status, provider_response := some provider_response,
           updated_at := some now }

/-- Modelled from the spec: `notifications_dao._update_notification_status`
applied to a store — updates exactly the fetched row (identified by primary
key `id`). -/
def dao_update_notification_status (db : List Notification) (n : Notification)
    (status provider_response : String) (now : Nat) : List Notification :=
  db.map fun m =>
    if m.id == n.id then update_notification_record n status provider_response now
    else m

/-- A service's registered delivery-status callback API
(`service_callback_api` row). -/
structure ServiceCallbackApi where
  url : String
  bearer_token : String
deriving DecidableEq, Repr

/-- `create_delivery_status_callback_data(notification, service_callback_api)`
from `app/celery/service_callback_tasks.py`, with
`strftime(DATETIME_FORMAT)` modelled as `toString` on the tick;
`encryption.encrypt` and the matching `decrypt` in
`send_delivery_status_to_service` cancel, so the payload is kept structured. -/
def create_delivery_status_callback_data (n : Notification)
    (api : ServiceCallbackApi) : StatusUpdate :=
  { notification_client_reference := n.client_reference,
    notification_to := n.to_addr,
    notification_status := n.status,
    notification_created_at := toString n.created_at,
    notification_updated_at := n.updated_at.map toString,
    notification_sent_at := n.sent_at.map toString,
    notification_type := n.notification_type,
    service_callback_api_url := api.url,
    service_callback_api_bearer_token := api.bearer_token }

/-- A `send-delivery-status` task enqueued by
`send_delivery_status_to_service.apply_async`. -/
structure QueuedCallbackTask where
  notification_id : String
  data : StatusUpdate
deriving DecidableEq, Repr

/-- The POST that executing a queued `send-delivery-status` task performs. -/
def run_send_delivery_status (t : QueuedCallbackTask) : HttpRequest :=
  send_delivery_status_request t.notification_id t.data

/-- `_check_and_queue_callback_task(notification)` from
`app/celery/service_callback_tasks.py`: queue one callback task iff the
service's delivery-status callback API exists
(`get_service_delivery_status_callback_api_for_service` is a dao not under
src/; modelled from the spec, §4.4 step 7, as a lookup by service id). -/
def _check_and_queue_callback_task (apis : List (String × ServiceCallbackApi))
    (n : Notification) : List QueuedCallbackTask :=
  match apis.lookup n.service_id with
  | some api => [⟨n.id, create_delivery_status_callback_data n api⟩]
  | none => []

/-- The `process-pinpoint-result` task's input after `json.loads` and the
three key reads: either the three extracted strings, or `malformed` — a
response that is not valid JSON or lacks `messageId` / `messageStatus` /
`messageStatusDescription` (the exception surfaces inside the outer `try`). -/
inductive ParsedReceipt where
  | ok (messageId messageStatus messageStatusDescription : String)
  | malformed
deriving DecidableEq, Repr

/-- The world state `process_pinpoint_results` runs against: the notification
store, the registered delivery-status callback APIs keyed by service id,
`self.request.retries`, and the current clock tick. -/
structure PinpointEnv where
  db : List Notification
  callbackApis : List (String × ServiceCallbackApi)
  retries : Nat
  now : Nat
deriving DecidableEq, Repr

/-- Log events of `process_pinpoint_results`, in emission order. -/
inductive PinpointLog where
  | warnUnhandledResponse (reference provider_response : String)
  | warnNotFoundRetry (reference : String)
  | warnNotFoundGiveUp (reference : String)
  | errorWrongProvider (id : String)
  | warnDuplicateUpdate (id status : String)
  | infoDeliveryFailed (id : String)
  | infoDelivered (id : String)
  | errorProcessing
deriving DecidableEq, Repr

/-- How one execution of `process_pinpoint_results` ends.  `notFoundRetried`
and `errorRetried` are the celery `Retry` raised by `self.retry` (re-raised
unchanged by `except Retry: raise`); `errorMaxRetries` is the
`MaxRetriesExceededError` that escapes the outer handler, which has no
`except self.MaxRetriesExceededError` around its `self.retry`. -/
inductive PinpointOutcome where
  | completed
  | notFoundRetried
  | notFoundDropped
  | wrongProvider
  | duplicateIgnored
  | errorRetried
  | errorMaxRetries
deriving DecidableEq, Repr

/-- The observable result of one execution of `process_pinpoint_results`. -/
structure PinpointResult where
  db : List Notification
  enqueued : List QueuedCallbackTask
  logs : List PinpointLog
  outcome : PinpointOutcome
deriving DecidableEq, Repr

/-- `max_retries=5` on the `process-pinpoint-result` task decorator. -/
def pinpoint_max_retries : Nat := 5

/-- `process_pinpoint_results(self, response)`: parse, map the provider
status (defaulting unmapped responses to technical-failure with a warning),
look up by reference (not-found → bounded retry, then give up), guard on
`sent_by == PINPOINT_PROVIDER`, guard on `status == NOTIFICATION_SENT`
(duplicate/stale callbacks are logged and discarded), then apply the status
transition, log, and queue the service callback task for the updated row. -/
def process_pinpoint_results (env : PinpointEnv) (receipt : ParsedReceipt) :
    PinpointResult :=
  match receipt with
  | .malformed =>
      { db := env.db, enqueued := [], logs := [.errorProcessing],
        outcome :=
          if env.retries < pinpoint_max_retries then .errorRetried
          else .errorMaxRetries }
  | .ok reference status provider_response =>
      let mapped := determine_pinpoint_status status provider_response
      let notification_status := mapped.getD NOTIFICATION_TECHNICAL_FAILURE
      let warnLogs : List PinpointLog :=
        if mapped.isNone then [.warnUnhandledResponse reference provider_response]
        else []
      match dao_get_notification_by_reference env.db reference with
      | none =>
          if env.retries < pinpoint_max_retries then
            { db := env.db, enqueued := [],
              logs := warnLogs ++ [.warnNotFoundRetry reference],
              outcome := .notFoundRetried }
          else
            { db := env.db, enqueued := [],
              logs := warnLogs ++ [.warnNotFoundRetry reference,
                                   .warnNotFoundGiveUp reference],
              outcome := .notFoundDropped }
      | some notification =>
          if notification.sent_by ≠ PINPOINT_PROVIDER then
            { db := env.db, enqueued := [],
              logs := warnLogs ++ [.errorWrongProvider notification.id],
              outcome := .wrongProvider }
          else if notification.status ≠ NOTIFICATION_SENT then
            { db := env.db, enqueued := [],
              logs := warnLogs ++ [.warnDuplicateUpdate notification.id
                                     notification_status],
              outcome := .duplicateIgnored }
          else
            let n' := update_notification_record notification notification_status
              provider_response env.now
            { db := dao_update_notification_status env.db notification
                notification_status provider_response env.now,
              enqueued := _check_and_queue_callback_task env.callbackApis n',
              logs := warnLogs ++
                [if notification_status ≠ NOTIFICATION_DELIVERED then
                   .infoDeliveryFailed notification.id
                 else .infoDelivered notification.id],
              outcome := .completed }

/-! ### Reconciler helper lemmas -/

theorem lookup_mem_values {κ β : Type} [BEq κ] (l : List (κ × β)) (k : κ) (v : β)
    (h : l.lookup k = some v) : v ∈ l.map Prod.snd := by
  induction l with
  | nil => simp [List.lookup] at h
  | cons hd tl ih =>
      obtain ⟨k', b⟩ := hd
      simp only [List.lookup] at h
      split at h
      · obtain rfl := Option.some.inj h
        simp
      · simp [ih h]

theorem determine_pinpoint_status_ne_sent (s d : String) :
    (determine_pinpoint_status s d).getD NOTIFICATION_TECHNICAL_FAILURE ≠
      NOTIFICATION_SENT := by
  unfold determine_pinpoint_status
  split
  · decide
  · cases h : pinpointReasons.lookup d with
    | none =>
        simp only [h]
        split <;> decide
    | some v =>
        simp only [h, Option.getD_some]
        have hv := lookup_mem_values pinpointReasons d v h
        have hne : NOTIFICATION_SENT ∉ pinpointReasons.map Prod.snd := by decide
        intro hvs
        exact hne (hvs ▸ hv)

theorem find?_map_update (db : List Notification) (n n' : Notification)
    (p : Notification → Bool)
    (hfind : db.find? p = some n) (hp : p n' = true)
    (hid : ∀ m ∈ db, m.id = n.id → m = n) :
    (db.map fun m => if m.id == n.id then n' else m).find? p = some n' := by
  induction db with
  | nil => simp at hfind
  | cons hd tl ih =>
      have hpn : p n = true := List.find?_some hfind
      rw [List.map_cons]
      cases hph : p hd with
      | true =>
          rw [List.find?_cons_of_pos _ hph] at hfind
          obtain rfl := Option.some.inj hfind
          have hd_eq : (if hd.id == hd.id then n' else hd) = n' := by simp
          rw [hd_eq]
          exact List.find?_cons_of_pos _ hp
      | false =>
          rw [List.find?_cons_of_neg _ (by simp [hph])] at hfind
          have hne : ¬ hd.id = n.id := by
            intro he
            have heq := hid hd (List.mem_cons_self hd tl) he
            rw [heq, hpn] at hph
            exact Bool.noConfusion hph
          have hd_eq : (if hd.id == n.id then n' else hd) = hd := by simp [hne]
          rw [hd_eq]
          rw [List.find?_cons_of_neg _ (by simp [hph])]
          exact ih hfind fun m hm => hid m (List.mem_cons_of_mem hd hm)

theorem check_and_queue_length_le_one (apis : List (String × ServiceCallbackApi))
    (n : Notification) : (_check_and_queue_callback_task apis n).length ≤ 1 := by
  unfold _check_and_queue_callback_task
  cases apis.lookup n.service_id <;> simp

/-! ### Reconciler claims -/

/-- **C1.** Reconciler idempotence: a notification in status `sent` and
`sent_by = "pinpoint"`, matching the callback's reference, is transitioned
exactly once to the mapped status (which is never `sent`), with at most one
service-callback dispatch enqueued; re-applying the identical callback to the
resulting store — at any later clock tick and retry count — leaves the store
(status, provider response, timestamps) unchanged, enqueues nothing, and ends
in the duplicate-ignored guard, so the terminal status is never overwritten. -/
theorem C1_reconciler_idempotence
    (env : PinpointEnv) (ref st desc : String) (n : Notification) (r2 t2 : Nat)
    (h_find : dao_get_notification_by_reference env.db ref = some n)
    (h_status : n.status = NOTIFICATION_SENT)
    (h_prov : n.sent_by = PINPOINT_PROVIDER)
    (h_id : ∀ m ∈ env.db, m.id = n.id → m = n) :
    (process_pinpoint_results env (.ok ref st desc)).db =
        dao_update_notification_status env.db n
          ((determine_pinpoint_status st desc).getD NOTIFICATION_TECHNICAL_FAILURE)
          desc env.now ∧
      (process_pinpoint_results env (.ok ref st desc)).outcome = .completed ∧
      (process_pinpoint_results env (.ok ref st desc)).enqueued.length ≤ 1 ∧
      (determine_pinpoint_status st desc).getD NOTIFICATION_TECHNICAL_FAILURE ≠
        NOTIFICATION_SENT ∧
      (process_pinpoint_results
          ⟨(process_pinpoint_results env (.ok ref st desc)).db, env.callbackApis,
            r2, t2⟩ (.ok ref st desc)).db =
        (process_pinpoint_results env (.ok ref st desc)).db ∧
      (process_pinpoint_results
          ⟨(process_pinpoint_results env (.ok ref st desc)).db, env.callbackApis,
            r2, t2⟩ (.ok ref st desc)).enqueued = [] ∧
      (process_pinpoint_results
          ⟨(process_pinpoint_results env (.ok ref st desc)).db, env.callbackApis,
            r2, t2⟩ (.ok ref st desc)).outcome = .duplicateIgnored := by
  have h_find' : env.db.find? (fun m => m.reference == ref) = some n := h_find
  have hns := determine_pinpoint_status_ne_sent st desc
  have hrun1 : process_pinpoint_results env (.ok ref st desc) =
      { db := dao_update_notification_status env.db n
          ((determine_pinpoint_status st desc).getD NOTIFICATION_TECHNICAL_FAILURE)
          desc env.now,
        enqueued := _check_and_queue_callback_task env.callbackApis
          (update_notification_record n
            ((determine_pinpoint_status st desc).getD NOTIFICATION_TECHNICAL_FAILURE)
            desc env.now),
        logs := (if (determine_pinpoint_status st desc).isNone then
            [.warnUnhandledResponse ref desc] else []) ++
          [if (determine_pinpoint_status st desc).getD NOTIFICATION_TECHNICAL_FAILURE
              ≠ NOTIFICATION_DELIVERED then
            .infoDeliveryFailed n.id else .infoDelivered n.id],
        outcome := .completed } := by
    simp only [process_pinpoint_results, h_find, h_prov, h_status, ne_eq,
      not_true_eq_false, if_false, ite_false]
  have hp0 := List.find?_some (p := fun m => m.reference == ref) (a := n) h_find'
  have hp : ((update_notification_record n
      ((determine_pinpoint_status st desc).getD NOTIFICATION_TECHNICAL_FAILURE)
      desc env.now).reference == ref) = true := hp0
  have hfind2 : dao_get_notification_by_reference
      (dao_update_notification_status env.db n
        ((determine_pinpoint_status st desc).getD NOTIFICATION_TECHNICAL_FAILURE)
        desc env.now) ref =
      some (update_notification_record n
        ((determine_pinpoint_status st desc).getD NOTIFICATION_TECHNICAL_FAILURE)
        desc env.now) := by
    unfold dao_get_notification_by_reference dao_update_notification_status
    exact find?_map_update env.db n _ (fun m => m.reference == ref) h_find' hp h_id
  have hrun2 : process_pinpoint_results
      ⟨dao_update_notification_status env.db n
          ((determine_pinpoint_status st desc).getD NOTIFICATION_TECHNICAL_FAILURE)
          desc env.now, env.callbackApis, r2, t2⟩ (.ok ref st desc) =
      { db := dao_update_notification_status env.db n
          ((determine_pinpoint_status st desc).getD NOTIFICATION_TECHNICAL_FAILURE)
          desc env.now,
        enqueued := [],
        logs := (if (determine_pinpoint_status st desc).isNone then
            [.warnUnhandledResponse ref desc] else []) ++
          [.warnDuplicateUpdate n.id
            ((determine_pinpoint_status st desc).getD NOTIFICATION_TECHNICAL_FAILURE)],
        outcome := .duplicateIgnored } := by
    simp only [process_pinpoint_results, hfind2, update_notification_record,
      h_prov, ne_eq, not_true_eq_false, if_false, ite_false, hns,
      not_false_eq_true, if_true, ite_true]
  refine ⟨?_, ?_, ?_, hns, ?_, ?_, ?_⟩
  · rw [hrun1]
  · rw [hrun1]
  · rw [hrun1]
    exact check_and_queue_length_le_one env.callbackApis _
  · simp only [hrun1, hrun2]
  · simp only [hrun1, hrun2]
  · simp only [hrun1, hrun2]

/-- A concrete notification awaiting its Pinpoint receipt (status `sent`,
`sent_by = "pinpoint"`), used to instantiate the reconciler theorems. -/
def nSent : Notification :=
  { id := "nid-1", reference := "abc-123", status := NOTIFICATION_SENT,
    sent_by := PINPOINT_PROVIDER, provider_response := none,
    client_reference := some "cref", to_addr := "+16135550123",
    notification_type := "sms", created_at := 0, updated_at := none,
    sent_at := some 1, service_id := "svc-1" }

/-- A concrete registered delivery-status callback API. -/
def sampleApi : ServiceCallbackApi := ⟨"https://example.test/cb", "tok"⟩

/-- A concrete environment: one `sent` pinpoint notification, its service's
callback API registered. -/
def envSent : PinpointEnv := ⟨[nSent], [("svc-1", sampleApi)], 0, 2⟩

/-- Like `nSent` but still in status `sending` (provider call made, receipt
status not yet reached `sent`). -/
def nSending : Notification := { nSent with status := NOTIFICATION_SENDING }

/-- Environment holding only `nSending`. -/
def envSending : PinpointEnv := ⟨[nSending], [("svc-1", sampleApi)], 0, 2⟩

/-- **C1 witness**: the idempotence theorem at the concrete `envSent` with a
`DELIVERED` receipt — the first application completes, the identical
re-application is discarded by the duplicate guard. -/
theorem C1_reconciler_idempotence_wit :
    (process_pinpoint_results envSent
      (.ok "abc-123" "DELIVERED" "Message has been accepted by phone")).outcome =
        .completed ∧
      (process_pinpoint_results
        ⟨(process_pinpoint_results envSent
            (.ok "abc-123" "DELIVERED" "Message has been accepted by phone")).db,
          envSent.callbackApis, 1, 9⟩
        (.ok "abc-123" "DELIVERED" "Message has been accepted by phone")).outcome =
        .duplicateIgnored := by
  have h := C1_reconciler_idempotence envSent "abc-123" "DELIVERED"
    "Message has been accepted by phone" nSent 1 9 (by decide) (by decide)
    (by decide) (by decide)
  exact ⟨h.2.1, h.2.2.2.2.2.2⟩

/-- **C4, counterexample.** The claim requires a notification in status
`sending` to be updated by a `DELIVERED` callback; the code's guard is
`status != NOTIFICATION_SENT`, so a notification in `sending` is treated as a
duplicate/stale callback: nothing is updated, nothing is enqueued, even with
the callback API registered. -/
theorem C4_sending_counterexample :
    nSending.status = NOTIFICATION_SENDING ∧
      nSending.sent_by = PINPOINT_PROVIDER ∧
      envSending.callbackApis.lookup nSending.service_id = some sampleApi ∧
      (process_pinpoint_results envSending
        (.ok "abc-123" "DELIVERED" "Message has been accepted by phone")).db =
        [nSending] ∧
      (process_pinpoint_results envSending
        (.ok "abc-123" "DELIVERED" "Message has been accepted by phone")).enqueued =
        [] ∧
      (process_pinpoint_results envSending
        (.ok "abc-123" "DELIVERED" "Message has been accepted by phone")).outcome =
        .duplicateIgnored := by
  refine ⟨rfl, rfl, rfl, rfl, rfl, rfl⟩

/-- **C4 (amended).** For a notification in the pre-callback status `sent`
(not `sending`) with `sent_by = "pinpoint"`, a receipt with
`messageStatus = "DELIVERED"` updates its status to `delivered`, and — the
owning service having a registered delivery-status callback API — exactly one
`send-delivery-status` task is enqueued, whose execution performs exactly one
POST of the signed status payload to that API's URL with its bearer token. -/
theorem C4_delivered_updates_and_posts_once
    (env : PinpointEnv) (ref desc : String) (n : Notification)
    (api : ServiceCallbackApi)
    (h_find : dao_get_notification_by_reference env.db ref = some n)
    (h_status : n.status = NOTIFICATION_SENT)
    (h_prov : n.sent_by = PINPOINT_PROVIDER)
    (h_api : env.callbackApis.lookup n.service_id = some api) :
    (process_pinpoint_results env (.ok ref "DELIVERED" desc)).db =
        dao_update_notification_status env.db n NOTIFICATION_DELIVERED desc
          env.now ∧
      (process_pinpoint_results env (.ok ref "DELIVERED" desc)).enqueued =
        [⟨n.id, create_delivery_status_callback_data
          (update_notification_record n NOTIFICATION_DELIVERED desc env.now) api⟩] ∧
      (process_pinpoint_results env (.ok ref "DELIVERED" desc)).enqueued.map
          run_send_delivery_status =
        [{ method := "POST", url := api.url,
           body := send_delivery_status_data n.id
             (create_delivery_status_callback_data
               (update_notification_record n NOTIFICATION_DELIVERED desc env.now)
               api),
           headers := callback_request_headers api.bearer_token }] := by
  have hdet : determine_pinpoint_status "DELIVERED" desc =
      some NOTIFICATION_DELIVERED := by
    unfold determine_pinpoint_status
    rw [if_pos rfl]
  have hrun : process_pinpoint_results env (.ok ref "DELIVERED" desc) =
      { db := dao_update_notification_status env.db n NOTIFICATION_DELIVERED
          desc env.now,
        enqueued := [⟨n.id, create_delivery_status_callback_data
          (update_notification_record n NOTIFICATION_DELIVERED desc env.now) api⟩],
        logs := [.infoDelivered n.id],
        outcome := .completed } := by
    simp only [process_pinpoint_results, hdet, h_find, h_prov, h_status]
    simp [_check_and_queue_callback_task, update_notification_record, h_api]
  refine ⟨?_, ?_, ?_⟩
  · rw [hrun]
  · rw [hrun]
  · rw [hrun]
    rfl

/-- **C4 witness**: the amended theorem at the concrete `envSent`, all four
hypotheses discharged. -/
theorem C4_delivered_updates_and_posts_once_wit :
    (process_pinpoint_results envSent
        (.ok "abc-123" "DELIVERED" "Message has been accepted by phone")).enqueued.map
        run_send_delivery_status =
      [{ method := "POST", url := sampleApi.url,
         body := send_delivery_status_data nSent.id
           (create_delivery_status_callback_data
             (update_notification_record nSent NOTIFICATION_DELIVERED
               "Message has been accepted by phone" envSent.now) sampleApi),
         headers := callback_request_headers sampleApi.bearer_token }] :=
  (C4_delivered_updates_and_posts_once envSent "abc-123"
    "Message has been accepted by phone" nSent sampleApi (by decide) (by decide)
    (by decide) (by decide)).2.2

/-- **C6, counterexample.** The claim says every non-`DELIVERED` receipt whose
description has no entry in the lookup table maps to technical-failure with a
warning.  A description containing the substring `"is opted out"` — absent
from the table — is mapped to permanent-failure instead, and no
unmapped-response warning is logged. -/
theorem C6_opted_out_counterexample :
    pinpointReasons.lookup "Recipient is opted out" = none ∧
      determine_pinpoint_status "_FAILED" "Recipient is opted out" =
        some NOTIFICATION_PERMANENT_FAILURE ∧
      NOTIFICATION_PERMANENT_FAILURE ≠ NOTIFICATION_TECHNICAL_FAILURE ∧
      (process_pinpoint_results envSent
        (.ok "abc-123" "_FAILED" "Recipient is opted out")).db =
        [update_notification_record nSent NOTIFICATION_PERMANENT_FAILURE
          "Recipient is opted out" 2] ∧
      PinpointLog.warnUnhandledResponse "abc-123" "Recipient is opted out" ∉
        (process_pinpoint_results envSent
          (.ok "abc-123" "_FAILED" "Recipient is opted out")).logs := by
  refine ⟨by decide, by decide, by decide, by decide, by decide⟩

/-- **C6 (amended).** For a receipt whose `messageStatus` is not `DELIVERED`,
whose `messageStatusDescription` has no entry in the fixed lookup table, and
whose description does not contain the substring `"is opted out"` (which maps
to permanent-failure), `determine_pinpoint_status` returns `None`; the
reconciler then logs the unmapped-provider-response warning on every path,
and — when the receipt reaches a matching `sent` pinpoint notification —
assigns technical-failure. -/
theorem C6_unmapped_defaults_to_technical_failure
    (env : PinpointEnv) (ref st desc : String)
    (h_st : st ≠ "DELIVERED")
    (h_tab : pinpointReasons.lookup desc = none)
    (h_sub : strContains desc "is opted out" = false) :
    determine_pinpoint_status st desc = none ∧
      PinpointLog.warnUnhandledResponse ref desc ∈
        (process_pinpoint_results env (.ok ref st desc)).logs ∧
      ∀ n, dao_get_notification_by_reference env.db ref = some n →
        n.status = NOTIFICATION_SENT → n.sent_by = PINPOINT_PROVIDER →
        (process_pinpoint_results env (.ok ref st desc)).db =
          dao_update_notification_status env.db n NOTIFICATION_TECHNICAL_FAILURE
            desc env.now := by
  have hdet : determine_pinpoint_status st desc = none := by
    unfold determine_pinpoint_status
    rw [if_neg h_st, h_tab]
    simp [h_sub]
  refine ⟨hdet, ?_, ?_⟩
  · cases hdb : dao_get_notification_by_reference env.db ref with
    | none =>
        simp only [process_pinpoint_results, hdet, hdb, Option.isNone_none]
        split <;> simp
    | some n =>
        simp only [process_pinpoint_results, hdet, hdb, Option.isNone_none]
        split
        · simp
        · split <;> simp
  · intro n h_find h_status h_prov
    simp only [process_pinpoint_results, hdet, h_find, h_prov, h_status, ne_eq,
      not_true_eq_false, if_false, ite_false, Option.getD_none]

/-- **C6 witness**: the amended theorem at `envSent` and a fresh provider
response string, all hypotheses discharged; the store row is set to
technical-failure and the warning is logged. -/
theorem C6_unmapped_defaults_to_technical_failure_wit :
    determine_pinpoint_status "_FAILED" "Some brand new mystery reason" = none ∧
      (process_pinpoint_results envSent
        (.ok "abc-123" "_FAILED" "Some brand new mystery reason")).db =
        dao_update_notification_status envSent.db nSent
          NOTIFICATION_TECHNICAL_FAILURE "Some brand new mystery reason"
          envSent.now :=
  ⟨(C6_unmapped_defaults_to_technical_failure envSent "abc-123" "_FAILED"
      "Some brand new mystery reason" (by decide) (by decide) (by decide)).1,
   (C6_unmapped_defaults_to_technical_failure envSent "abc-123" "_FAILED"
      "Some brand new mystery reason" (by decide) (by decide) (by decide)).2.2
     nSent (by decide) (by decide) (by decide)⟩

/-- **C10.** A receipt that fails to parse (invalid JSON, or a missing
`messageId`/`messageStatus`/`messageStatusDescription` key) reaches the outer
exception handler: the error is logged and the task resubmits itself to the
retry queue — bounded by `max_retries = 5`, after which celery's
max-retries-exceeded error ends the retrying — the original exception is
never propagated, and the notification store is untouched on this path. -/
theorem C10_malformed_receipt_retries :
    ∀ env : PinpointEnv,
      (process_pinpoint_results env .malformed).db = env.db ∧
      (process_pinpoint_results env .malformed).enqueued = [] ∧
      (process_pinpoint_results env .malformed).logs = [.errorProcessing] ∧
      (process_pinpoint_results env .malformed).outcome =
        (if env.retries < pinpoint_max_retries then .errorRetried
         else .errorMaxRetries) ∧
      pinpoint_max_retries = 5 := by
  intro env
  exact ⟨rfl, rfl, rfl, rfl, rfl⟩

end NotifierApi
